import Mathlib

/-!
Verification development for `sub_bot.py`, a Telegram front end for the s-ui
panel API.  The Python source is shallowly embedded below:

* HTTP traffic is abstracted as a `PanelReply` value: either a response
  (status code plus the outcome of `response.json()`) or a raised
  `requests.exceptions.RequestException` (which also covers timeouts and
  JSON decode errors, both subclasses caught by the same handler).
* Python dictionaries produced by the panel are embedded as structures with
  `Option` fields, so that `dict.get` with and without defaults is modelled
  exactly (`Option.getD` vs. comparison with `none`).
* Telegram messages are embedded as `Screen` values: the final
  `reply_text` / `edit_message_text` call of a handler, carrying the text and
  the inline keyboard (a list of button rows).
* Python integer formatting (f-strings) is modelled by `pyIntStr`, a plain
  decimal renderer, and the Python `int()` constructor by `pyInt?`
  (sign plus decimal digits; the additional tolerance of `int()` for surrounding
  whitespace and underscores between digits is not exercised by any token
  the program builds).
-/

/-! ## Data model: panel JSON objects -/

/-- One element of the `obj.inbounds` array of the panel.  Fields are `Option`s
because the Python code reads them with `dict.get`. -/
structure Inbound where
  id : Option Int
  tag : Option String
  users : Option (List String)
deriving DecidableEq

/-- The `obj` payload of a panel reply; only the `inbounds` key is read. -/
structure Obj where
  inbounds : Option (List Inbound)
deriving DecidableEq

/-- A decoded JSON body `{ success, obj?, msg? }` as read by the bot. -/
structure ApiBody where
  success : Option Bool
  obj : Option Obj
  msg : Option String
deriving DecidableEq

/-- Outcome of one `requests.get` call: either a response (status code and
the result of `response.json()`, where `.error e` stands for a raised
`JSONDecodeError` with text `e`), or a raised `RequestException` (network
error or timeout) with text `e`. -/
inductive PanelReply where
  | resp (statusCode : Nat) (json : Except String ApiBody)
  | exn (e : String)

/-- The `requests.Response.ok` predicate: true iff the status code is below
400. -/
def respOk (statusCode : Nat) : Bool := statusCode < 400

/-! ## Decimal rendering and parsing of integers -/

/-- Fuelled digit accumulator (the fuel makes the recursion structural, so
terms reduce inside the kernel); with fuel above `n` it pushes the decimal
digits of `n`, most significant first, onto `acc`. -/
def natToDigitsAux : Nat → Nat → List Char → List Char
  | 0, _, acc => acc
  | fuel + 1, n, acc =>
    if n < 10 then Nat.digitChar n :: acc
    else natToDigitsAux fuel (n / 10) (Nat.digitChar (n % 10) :: acc)

/-- Big-endian decimal digits of a natural number, as rendered by a Python
f-string (and by the `Nat.repr` of Lean itself). -/
def natToDigits (n : Nat) : List Char := natToDigitsAux (n + 1) n []

/-- Decimal rendering of an integer, as a Python f-string renders it. -/
def pyIntDigits (i : Int) : List Char :=
  if i < 0 then '-' :: natToDigits (-i).toNat else natToDigits i.toNat

/-- Rendering `str(i)` / f-string interpolation of a Python `int`. -/
def pyIntStr (i : Int) : String := ⟨pyIntDigits i⟩

/-- f-string interpolation of a nonnegative count such as `len(...)`. -/
def pyNatStr (n : Nat) : String := ⟨natToDigits n⟩

/-- Accumulating decimal parse; fails on the first non-digit character. -/
def digitsVal? : List Char → Nat → Option Nat
  | [], acc => some acc
  | c :: cs, acc =>
    if c.isDigit then digitsVal? cs (acc * 10 + (c.toNat - 48)) else none

/-- The Python `int()` constructor on the strings this program can feed it:
an optional sign followed by a nonempty run of decimal digits.  (`int()`
additionally strips whitespace and underscores between digits; no token
built by the program contains those.) -/
def pyInt? (s : List Char) : Option Int :=
  match s with
  | '+' :: rest =>
    if rest.isEmpty then none else (digitsVal? rest 0).map Int.ofNat
  | '-' :: rest =>
    if rest.isEmpty then none else (digitsVal? rest 0).map (fun n => -(n : Int))
  | _ =>
    if s.isEmpty then none else (digitsVal? s 0).map Int.ofNat

/-! ## MarkdownV2 escaping (`escape_markdown`) -/

/-- The reserved characters of the regex character class in
`escape_chars` (underscore, asterisk, square brackets, parentheses, tilde,
backtick, greater-than, hash, plus, minus, equals, pipe, braces, dot, bang). -/
def reservedChars : List Char :=
  ['_', '*', '[', ']', '(', ')', '~', '`', '>', '#', '+', '-', '=', '|', '{', '}', '.', '!']

/-- Whether `re.sub` matches the character, i.e. it lies in the class. -/
def isReserved (c : Char) : Bool := reservedChars.contains c

/-- Character-by-character action of
the `re.sub` call over the escaped character class: the pattern is a
single-character class, so each matched character independently gains a
leading backslash. -/
def escapeList : List Char → List Char
  | [] => []
  | c :: cs => if isReserved c then '\\' :: c :: escapeList cs else c :: escapeList cs

/-- Function `escape_markdown` from the source. -/
def escape_markdown (s : String) : String := ⟨escapeList s.data⟩

/-- Modelled from the spec: the manual unescaping step of the round-trip
property, "removing the inserted backslashes before reserved characters",
scanning left to right. -/
def unescapeList : List Char → List Char
  | [] => []
  | [c] => [c]
  | c :: d :: ds =>
    if c = '\\' ∧ isReserved d then d :: unescapeList ds
    else c :: unescapeList (d :: ds)

/-- Modelled from the spec: unescaping lifted to strings. -/
def unescape_markdown (s : String) : String := ⟨unescapeList s.data⟩

/-- Escaping one character in isolation: the per-occurrence action that
`escape_markdown` applies to every character of its input. -/
def escChar (c : Char) : List Char :=
  if isReserved c then ['\\', c] else [c]

/-! ## PanelClient: `get_sui_inbounds` and `test_sui_connection` -/

/-- The value `data.get("msg")` interpolated by an f-string: `None` prints as
`"None"`. -/
def optMsgStr : Option String → String
  | some m => m
  | none => "None"

/-- Function `get_sui_inbounds` from the source: `(True, data.get("obj", ...))` on
success is embedded as `.ok obj`, every `(False, message)` as `.error`. -/
def get_sui_inbounds (r : PanelReply) : Except String Obj :=
  match r with
  | .exn e => .error ("Connection Error: " ++ e)
  | .resp statusCode json =>
    if respOk statusCode then
      match json with
      | .error e => .error ("Connection Error: " ++ e)
      | .ok data =>
        if data.success = some true then .ok (data.obj.getD ⟨none⟩)
        else .error ("API Error: " ++ (data.msg.getD "Unknown API error"))
    else .error ("HTTP Error: Status Code " ++ pyNatStr statusCode)

/-- Function `test_sui_connection` from the source: returns the `(bool, message)`
pair verbatim. -/
def test_sui_connection (r : PanelReply) : Bool × String :=
  match r with
  | .exn e => (false, "❌ Connection error: " ++ e)
  | .resp statusCode json =>
    if respOk statusCode then
      match json with
      | .error e => (false, "❌ Connection error: " ++ e)
      | .ok data =>
        if data.success = some true then (true, "✅ s-ui panel connection successful!")
        else (false, "❌ s-ui API returned failure: " ++ optMsgStr data.msg)
    else (false, "❌ Failed to connect. HTTP Status Code: " ++ pyNatStr statusCode)

/-- The `listInbounds` contract of the spec: the fetch (`get_sui_inbounds`)
composed with the extraction `data.get("inbounds", [])` done by the caller. -/
def listInbounds (r : PanelReply) : Except String (List Inbound) :=
  (get_sui_inbounds r).map (fun o => o.inbounds.getD [])

/-! ## Rendering: screens and buttons -/

/-- An `InlineKeyboardButton`. -/
structure Button where
  label : String
  callback_data : String
deriving DecidableEq

/-- The final outgoing message of a handler: plain text, or text with an
`InlineKeyboardMarkup` (a list of button rows). -/
inductive Screen where
  | text (msg : String)
  | markup (msg : String) (keyboard : List (List Button))
deriving DecidableEq

/-- All buttons of a screen, flattened row by row. -/
def screenButtons : Screen → List Button
  | .text _ => []
  | .markup _ kb => kb.foldr (fun row acc => row ++ acc) []

/-- The text line appended to `message_text` for one inbound. -/
def inboundLine (ib : Inbound) : String :=
  "\n• *Name:* `" ++ escape_markdown (ib.tag.getD "No Name") ++ "` \\| *ID:* `"
    ++ pyIntStr (ib.id.getD 0) ++ "` \\| *Users:* "
    ++ pyNatStr (ib.users.getD []).length

/-- The one-button keyboard row appended for one inbound. -/
def inboundRow (ib : Inbound) : List Button :=
  [⟨"View Users in \x27" ++ ib.tag.getD "No Name" ++ "\x27 ("
      ++ pyNatStr (ib.users.getD []).length ++ ")",
    "view_users:" ++ pyIntStr (ib.id.getD 0)⟩]

/-- Function `list_inbounds_command` from the source, as a function of the fetch
outcome; the value is the final reply (the initial "Fetching inbounds..."
progress message is transport glue). -/
def list_inbounds_command (fetch : Except String Obj) : Screen :=
  match fetch with
  | .error d => .text ("❌ Error: " ++ escape_markdown d)
  | .ok data =>
    let inbound_list := data.inbounds.getD []
    if inbound_list.isEmpty then .text "No inbounds found on your panel."
    else
      .markup ("*Available Inbounds:*\n" ++ String.join (inbound_list.map inboundLine))
        (inbound_list.map inboundRow)

/-! ## The button handler -/

/-- Behaviour of `split` on the callback data: splits at every colon, keeping
empty fields, exactly as the Python `split` with an explicit separator. -/
def pySplit : List Char → List (List Char)
  | [] => [[]]
  | c :: rest =>
    if c = ':' then [] :: pySplit rest
    else
      match pySplit rest with
      | p :: ps => (c :: p) :: ps
      | [] => [[c]]

/-- The parsing phase of `button_handler`:
`action, inbound_id_str = query.data.split(":")` followed by
`int(inbound_id_str)`.  `none` means a `ValueError` is raised, either by
the tuple unpacking (field count different from two) or by `int()`. -/
def parse_token (tok : String) : Option (String × Int) :=
  match pySplit tok.data with
  | [a, b] => (pyInt? b).map (fun i => (⟨a⟩, i))
  | _ => none

/-- A Python exception escaping the handler. -/
inductive PyErr where
  | valueError
deriving DecidableEq

/-- Observable outcome of one `button_handler` invocation: an uncaught
exception, a final message edit, or completion without any edit. -/
inductive HandlerResult where
  | raised (e : PyErr)
  | screen (s : Screen)
  | silent
deriving DecidableEq

/-- All buttons the handler leaves on screen. -/
def resultButtons : HandlerResult → List Button
  | .screen s => screenButtons s
  | _ => []

/-- The `"\n".join(...)` of backquoted escaped usernames. -/
def userTextList (users : List String) : String :=
  String.intercalate "\n" (users.map (fun u => "`" ++ escape_markdown u ++ "`"))

/-- Function `button_handler` from the source, as a function of the callback data
and of the fetch outcome of the one `get_sui_inbounds` call the taken
branch performs. -/
def button_handler (tok : String) (fetch : Except String Obj) : HandlerResult :=
  match parse_token tok with
  | none => .raised .valueError
  | some (action, inbound_id) =>
    if action = "view_users" then
      match fetch with
      | .error d => .screen (.text ("Error fetching data again: " ++ escape_markdown d))
      | .ok data =>
        match (data.inbounds.getD []).find? (fun ib => ib.id == some inbound_id) with
        | some target =>
          let remark := escape_markdown (target.tag.getD "No Name")
          let user_list := target.users.getD []
          if user_list.isEmpty then
            .screen (.text ("No users found in inbound *" ++ remark ++ "*\\."))
          else
            .screen (.markup ("*Users in " ++ remark ++ ":*\n\n" ++ userTextList user_list)
              [[⟨"« Back to Inbounds", "back_to_inbounds"⟩]])
        | none => .screen (.text "Couldn\x27t find that inbound anymore. Try /list_inbounds again.")
    else if action = "back_to_inbounds" then
      .screen (list_inbounds_command fetch)
    else .silent


/-! ## Auxiliary definitions for the proofs -/

/-- Value of a big-endian decimal digit list (used to invert `natToDigits`). -/
def digitsVal (l : List Char) : Nat :=
  l.foldl (fun a c => a * 10 + (c.toNat - 48)) 0

/-! ## Lemmas on decimal rendering -/

theorem natToDigitsAux_acc :
    ∀ fuel n acc, n < fuel →
      natToDigitsAux fuel n acc = natToDigitsAux fuel n [] ++ acc := by
  intro fuel
  induction fuel with
  | zero => intro n acc h; omega
  | succ f ih =>
    intro n acc h
    by_cases h10 : n < 10
    · simp [natToDigitsAux, h10]
    · have hlt : n / 10 < n := Nat.div_lt_self (by omega) (by omega)
      have hdiv : n / 10 < f := by omega
      simp only [natToDigitsAux, if_neg h10]
      rw [ih _ _ hdiv, ih _ [Nat.digitChar (n % 10)] hdiv, List.append_assoc]
      rfl

theorem natToDigitsAux_fuel :
    ∀ n fuel fuel', n < fuel → n < fuel' →
      natToDigitsAux fuel n [] = natToDigitsAux fuel' n [] := by
  intro n
  induction n using Nat.strong_induction_on with
  | _ n ih =>
    intro fuel fuel' h h'
    match fuel, fuel' with
    | f + 1, g + 1 =>
      by_cases h10 : n < 10
      · simp [natToDigitsAux, h10]
      · have hlt : n / 10 < n := Nat.div_lt_self (by omega) (by omega)
        simp only [natToDigitsAux, if_neg h10]
        rw [natToDigitsAux_acc _ _ _ (by omega), natToDigitsAux_acc g _ _ (by omega),
          ih (n / 10) hlt f g (by omega) (by omega)]

theorem natToDigits_step (n : Nat) (h : ¬n < 10) :
    natToDigits n = natToDigits (n / 10) ++ [Nat.digitChar (n % 10)] := by
  have hlt : n / 10 < n := Nat.div_lt_self (by omega) (by omega)
  show natToDigitsAux (n + 1) n [] = _
  simp only [natToDigitsAux, if_neg h]
  rw [natToDigitsAux_acc _ _ _ (by omega),
    natToDigitsAux_fuel (n / 10) n (n / 10 + 1) (by omega) (by omega)]
  rfl

theorem digitChar_toNat_sub : ∀ m, m < 10 → (Nat.digitChar m).toNat - 48 = m := by decide

theorem digitsVal_append_one (l : List Char) (c : Char) :
    digitsVal (l ++ [c]) = digitsVal l * 10 + (c.toNat - 48) := by
  simp [digitsVal, List.foldl_append]

theorem digitsVal_natToDigits : ∀ n, digitsVal (natToDigits n) = n := by
  intro n
  induction n using Nat.strong_induction_on with
  | _ n ih =>
    by_cases h10 : n < 10
    · have hrep : natToDigits n = [Nat.digitChar n] := by
        simp [natToDigits, natToDigitsAux, h10]
      rw [hrep]
      have := digitChar_toNat_sub n h10
      simp [digitsVal]
      omega
    · have hlt : n / 10 < n := Nat.div_lt_self (by omega) (by omega)
      rw [natToDigits_step n h10, digitsVal_append_one, ih (n / 10) hlt,
        digitChar_toNat_sub (n % 10) (by omega)]
      omega

theorem natToDigits_injective : Function.Injective natToDigits :=
  Function.LeftInverse.injective digitsVal_natToDigits

theorem natToDigits_head_isDigit :
    ∀ n, ∃ c cs, natToDigits n = c :: cs ∧ c.isDigit = true := by
  intro n
  induction n using Nat.strong_induction_on with
  | _ n ih =>
    by_cases h10 : n < 10
    · refine ⟨Nat.digitChar n, [], by simp [natToDigits, natToDigitsAux, h10], ?_⟩
      exact (by decide : ∀ m, m < 10 → (Nat.digitChar m).isDigit = true) n h10
    · have hlt : n / 10 < n := Nat.div_lt_self (by omega) (by omega)
      obtain ⟨c, cs, hc, hd⟩ := ih (n / 10) hlt
      exact ⟨c, cs ++ [Nat.digitChar (n % 10)], by rw [natToDigits_step n h10, hc]; rfl, hd⟩

theorem pyIntDigits_injective : Function.Injective pyIntDigits := by
  intro i j h
  unfold pyIntDigits at h
  by_cases hi : i < 0 <;> by_cases hj : j < 0
  · rw [if_pos hi, if_pos hj] at h
    injection h with _ h2
    have := natToDigits_injective h2
    omega
  · rw [if_pos hi, if_neg hj] at h
    obtain ⟨c, cs, hc, hd⟩ := natToDigits_head_isDigit j.toNat
    rw [hc] at h
    injection h with h1 _
    rw [← h1] at hd
    exact absurd hd (by decide)
  · rw [if_neg hi, if_pos hj] at h
    obtain ⟨c, cs, hc, hd⟩ := natToDigits_head_isDigit i.toNat
    rw [hc] at h
    injection h with h1 _
    rw [h1] at hd
    exact absurd hd (by decide)
  · rw [if_neg hi, if_neg hj] at h
    have := natToDigits_injective h
    omega

theorem pyIntStr_injective : Function.Injective pyIntStr := by
  intro i j h
  exact pyIntDigits_injective (congrArg String.data h)

theorem viewUsersTok_injective :
    Function.Injective (fun i : Int => "view_users:" ++ pyIntStr i) := by
  intro i j h
  apply pyIntStr_injective
  have h2 : ("view_users:" ++ pyIntStr i).data = ("view_users:" ++ pyIntStr j).data :=
    congrArg String.data h
  rw [String.data_append, String.data_append] at h2
  have h3 : (pyIntStr i).data = (pyIntStr j).data := List.append_cancel_left h2
  cases hi : pyIntStr i with
  | mk di =>
    cases hj : pyIntStr j with
    | mk dj =>
      rw [hi, hj] at h3
      simpa [hi, hj] using congrArg String.mk h3

/-! ## Lemmas on MarkdownV2 escaping -/

theorem escapeList_eq_join_map (l : List Char) :
    escapeList l = (l.map escChar).flatten := by
  induction l with
  | nil => rfl
  | cons c cs ih =>
    by_cases h : isReserved c <;> simp [escapeList, escChar, h, ih]

theorem escapeList_id (l : List Char) (h : ∀ c ∈ l, isReserved c = false) :
    escapeList l = l := by
  induction l with
  | nil => rfl
  | cons c cs ih =>
    have hc := h c (by simp)
    rw [escapeList, hc]
    simp only [Bool.false_eq_true, if_false, List.cons.injEq, true_and]
    exact ih (fun d hd => h d (by simp [hd]))

theorem escapeList_eq_nil (l : List Char) (h : escapeList l = []) : l = [] := by
  cases l with
  | nil => rfl
  | cons c cs =>
    by_cases hc : isReserved c <;> simp [escapeList, hc] at h

theorem escapeList_head_not_reserved (l : List Char) (c : Char) (cs : List Char)
    (h : escapeList l = c :: cs) : isReserved c = false := by
  cases l with
  | nil => simp [escapeList] at h
  | cons a as =>
    by_cases ha : isReserved a
    · rw [escapeList, if_pos ha] at h
      injection h with h1 _
      rw [← h1]
      decide
    · rw [escapeList, if_neg ha] at h
      injection h with h1 _
      rw [← h1]
      exact Bool.eq_false_iff.mpr ha

theorem unescapeList_escapeList (l : List Char) :
    unescapeList (escapeList l) = l := by
  induction l with
  | nil => rfl
  | cons c cs ih =>
    by_cases hres : isReserved c
    · rw [escapeList, if_pos hres, unescapeList, if_pos ⟨rfl, hres⟩, ih]
    · rw [escapeList, if_neg hres]
      cases hE : escapeList cs with
      | nil =>
        have hnil : cs = [] := escapeList_eq_nil cs hE
        subst hnil
        rfl
      | cons d ds =>
        have hd : isReserved d = false := escapeList_head_not_reserved cs d ds hE
        rw [unescapeList, if_neg (fun hand => by rw [hd] at hand; exact absurd hand.2 (by simp))]
        rw [← hE, ih]

/-! ## Lemmas on the rendered keyboards -/

theorem screenButtons_markup_cons (m : String) (row : List Button) (rows : List (List Button)) :
    screenButtons (.markup m (row :: rows)) = row ++ screenButtons (.markup m rows) := rfl

theorem inboundRows_callbacks (m : String) (l : List Inbound) :
    (screenButtons (.markup m (l.map inboundRow))).map Button.callback_data
      = l.map (fun ib => "view_users:" ++ pyIntStr (ib.id.getD 0)) := by
  induction l with
  | nil => rfl
  | cons ib t ih =>
    rw [List.map_cons, screenButtons_markup_cons, List.map_append, ih]
    rfl

theorem map_getD_of_map_some {α : Type} (f : Int → α) :
    ∀ (l : List Inbound) (ids : List Int), l.map Inbound.id = ids.map some →
      l.map (fun ib => f (ib.id.getD 0)) = ids.map f := by
  intro l
  induction l with
  | nil =>
    intro ids h
    cases ids with
    | nil => rfl
    | cons i is => simp at h
  | cons ib t ih =>
    intro ids h
    cases ids with
    | nil => simp at h
    | cons i is =>
      simp only [List.map_cons, List.cons.injEq] at h
      rw [List.map_cons, List.map_cons, h.1, ih is h.2]
      rfl

theorem mem_screenButtons_inboundRows (m : String) :
    ∀ (l : List Inbound) (ib : Inbound), ib ∈ l →
      ∀ b ∈ inboundRow ib, b ∈ screenButtons (.markup m (l.map inboundRow)) := by
  intro l
  induction l with
  | nil => intro ib h; cases h
  | cons a t ih =>
    intro ib h b hb
    rw [List.map_cons, screenButtons_markup_cons]
    rcases List.mem_cons.mp h with rfl | ht
    · exact List.mem_append_left _ hb
    · exact List.mem_append_right _ (ih ib ht b hb)

/-! ## Claim theorems -/

/-- C9: `escape_markdown` is total on strings, is the identity on text with
no reserved character, backslash-escapes every occurrence of every reserved
character individually (its output is the per-character escape of each input
character in sequence), and unescaping after escaping reproduces the
original string. -/
theorem escape_markdown_props :
    (∀ s : String, (∀ c ∈ s.data, isReserved c = false) → escape_markdown s = s)
      ∧ (∀ s : String, (escape_markdown s).data = (s.data.map escChar).flatten)
      ∧ (∀ s : String, unescape_markdown (escape_markdown s) = s) := by
  refine ⟨?_, ?_, ?_⟩
  · intro s h
    show (⟨escapeList s.data⟩ : String) = s
    rw [escapeList_id s.data h]
  · intro s
    exact escapeList_eq_join_map s.data
  · intro s
    show (⟨unescapeList (escapeList s.data)⟩ : String) = s
    rw [unescapeList_escapeList]

theorem escape_markdown_props_witness :
    escape_markdown "hello world" = "hello world"
      ∧ unescape_markdown (escape_markdown "a_b.c!") = "a_b.c!" :=
  ⟨escape_markdown_props.1 "hello world" (by decide),
   escape_markdown_props.2.2 "a_b.c!"⟩

/-- C6: on HTTP 2xx with the API success flag true, the inbound listing is
`Ok` with the `obj.inbounds` array verbatim, and `Ok []` (not an error)
when the inbounds key is missing. -/
theorem listInbounds_success_verbatim (s : Nat) (b : ApiBody)
    (hlo : 200 ≤ s) (hhi : s < 300) (hs : b.success = some true) :
    (∀ arr, (b.obj.getD ⟨none⟩).inbounds = some arr →
        listInbounds (.resp s (.ok b)) = .ok arr)
      ∧ ((b.obj.getD ⟨none⟩).inbounds = none → listInbounds (.resp s (.ok b)) = .ok []) := by
  have hok : respOk s = true := by simp [respOk]; omega
  constructor
  · intro arr ha
    simp [listInbounds, get_sui_inbounds, hok, hs, ha, Except.map]
  · intro ha
    simp [listInbounds, get_sui_inbounds, hok, hs, ha, Except.map]

theorem listInbounds_success_verbatim_witness :
    listInbounds (.resp 200 (.ok ⟨some true, some ⟨some [⟨some 7, some "t", some []⟩]⟩, none⟩))
        = .ok [⟨some 7, some "t", some []⟩]
      ∧ listInbounds (.resp 201 (.ok ⟨some true, none, none⟩)) = .ok [] :=
  ⟨(listInbounds_success_verbatim 200 _ (by omega) (by omega) rfl).1 _ rfl,
   (listInbounds_success_verbatim 201 _ (by omega) (by omega) rfl).2 rfl⟩

/-- C8: when every inbound of a well-formed response carries an assigned id
and the ids are pairwise distinct, the inbound list renders exactly one
button per inbound, in API order, the k-th carrying `view_users:{id}` for
the id of the k-th inbound, and all tokens are distinct. -/
theorem inbound_list_button_tokens (l : List Inbound) (ids : List Int)
    (hids : l.map Inbound.id = ids.map some) (hnd : ids.Nodup) :
    (screenButtons (list_inbounds_command (.ok ⟨some l⟩))).map Button.callback_data
        = ids.map (fun i => "view_users:" ++ pyIntStr i)
      ∧ ((screenButtons (list_inbounds_command (.ok ⟨some l⟩))).map Button.callback_data).Nodup := by
  have hmain : (screenButtons (list_inbounds_command (.ok ⟨some l⟩))).map Button.callback_data
      = ids.map (fun i => "view_users:" ++ pyIntStr i) := by
    cases l with
    | nil =>
      cases ids with
      | nil => rfl
      | cons i is => simp at hids
    | cons a t =>
      have hrw : list_inbounds_command (.ok ⟨some (a :: t)⟩)
          = .markup ("*Available Inbounds:*\n" ++ String.join ((a :: t).map inboundLine))
              ((a :: t).map inboundRow) := rfl
      rw [hrw, inboundRows_callbacks]
      exact map_getD_of_map_some (fun i => "view_users:" ++ pyIntStr i) (a :: t) ids hids
  refine ⟨hmain, ?_⟩
  rw [hmain]
  exact hnd.map viewUsersTok_injective

theorem inbound_list_button_tokens_witness :
    (screenButtons (list_inbounds_command
          (.ok ⟨some [⟨some 1, some "a", some ["u"]⟩, ⟨some 2, none, none⟩]⟩))).map Button.callback_data
        = [(1 : Int), 2].map (fun i => "view_users:" ++ pyIntStr i)
      ∧ ((screenButtons (list_inbounds_command
          (.ok ⟨some [⟨some 1, some "a", some ["u"]⟩, ⟨some 2, none, none⟩]⟩))).map Button.callback_data).Nodup :=
  inbound_list_button_tokens _ [1, 2] (by decide) (by decide)

/-- C1 (code bug, evaluated): a click on the `back_to_inbounds` button makes
`button_handler` raise `ValueError` at the two-way unpack of
`query.data.split(":")` — the token has no colon — so the
`elif action == "back_to_inbounds"` branch is unreachable and the inbound
list is never re-rendered. -/
theorem back_to_inbounds_click_raises (fetch : Except String Obj) :
    button_handler "back_to_inbounds" fetch = .raised .valueError := rfl

/-- C2 (code bug, evaluated): the UserList render of the controller emits a
button carrying `back_to_inbounds`, yet the token parser of that same
controller fails
on that very token, violating the emit/parse invariant. -/
theorem back_token_emitted_but_unparseable :
    resultButtons (button_handler "view_users:2"
          (.ok ⟨some [⟨some 2, some "work", some ["alice"]⟩]⟩))
        = [⟨"« Back to Inbounds", "back_to_inbounds"⟩]
      ∧ parse_token "back_to_inbounds" = none := by
  constructor
  · rfl
  · rfl

/-- C3 counterexample: on the scenario given in the spec (inbound id 2, tag
`work`, three users) the click yields a keyboard whose only callback token
is `back_to_inbounds` — there are no `user_details:{id}:{username}`
buttons at all, contradicting the claimed per-user button grid. -/
theorem view_users_no_user_buttons_cex :
    (resultButtons (button_handler "view_users:2"
        (.ok ⟨some [⟨some 2, some "work", some ["alice", "bob", "carol"]⟩]⟩))).map
          Button.callback_data
      = ["back_to_inbounds"] := rfl

/-- C3 amended: for every `view_users` click whose id is found in the fresh
data and whose inbound has at least one user, the handler renders the
usernames as escaped text lines (no per-user buttons) and a keyboard with
exactly one `back_to_inbounds` button. -/
theorem view_users_renders_text_and_back_button (tok : String) (i : Int)
    (data : Obj) (target : Inbound)
    (hparse : parse_token tok = some ("view_users", i))
    (hfind : (data.inbounds.getD []).find? (fun ib => ib.id == some i) = some target)
    (husers : (target.users.getD []).isEmpty = false) :
    button_handler tok (.ok data) =
      .screen (.markup ("*Users in " ++ escape_markdown (target.tag.getD "No Name") ++ ":*\n\n"
          ++ userTextList (target.users.getD []))
        [[⟨"« Back to Inbounds", "back_to_inbounds"⟩]]) := by
  simp [button_handler, hparse, hfind, husers]

theorem view_users_renders_text_and_back_button_witness :
    button_handler "view_users:2"
        (.ok ⟨some [⟨some 2, some "work", some ["alice", "bob", "carol"]⟩]⟩) =
      .screen (.markup ("*Users in " ++ escape_markdown "work" ++ ":*\n\n"
          ++ userTextList ["alice", "bob", "carol"])
        [[⟨"« Back to Inbounds", "back_to_inbounds"⟩]]) :=
  view_users_renders_text_and_back_button "view_users:2" 2 _
    ⟨some 2, some "work", some ["alice", "bob", "carol"]⟩ (by decide) (by decide) (by decide)

/-- C4 counterexample: the token `foo` (no colon) makes the handler raise
`ValueError` with no user-facing message, and the well-formed but unknown
token `foo:3` is silently swallowed — neither is surfaced as a chat
message. -/
theorem unknown_token_not_surfaced_cex :
    button_handler "foo" (.ok ⟨none⟩) = .raised .valueError
      ∧ button_handler "foo:3" (.ok ⟨none⟩) = .silent := by
  constructor
  · rfl
  · rfl

/-- C4 amended: a token whose parse fails (field count other than two, or a
non-integer id field) makes the handler raise `ValueError` out of the
handler, and a parseable token with an unknown action completes silently;
in neither case is a user-facing message produced. -/
theorem unknown_token_outcomes (tok : String) (fetch : Except String Obj) :
    (parse_token tok = none → button_handler tok fetch = .raised .valueError)
      ∧ (∀ a i, parse_token tok = some (a, i) → a ≠ "view_users" →
          a ≠ "back_to_inbounds" → button_handler tok fetch = .silent) := by
  constructor
  · intro h
    simp [button_handler, h]
  · intro a i h ha hb
    simp [button_handler, h, ha, hb]

theorem unknown_token_outcomes_witness :
    button_handler "bar" (.ok ⟨none⟩) = .raised .valueError
      ∧ button_handler "bar:7" (.ok ⟨none⟩) = .silent :=
  ⟨(unknown_token_outcomes "bar" (.ok ⟨none⟩)).1 (by decide),
   (unknown_token_outcomes "bar:7" (.ok ⟨none⟩)).2 "bar" 7 (by decide) (by decide) (by decide)⟩

/-- C5 counterexample: for a matched inbound with an empty `users` list the
handler sends the "no users found" text with *no* reply markup at all — in
particular there is no back button, contradicting "only a back button". -/
theorem empty_users_no_back_button_cex :
    button_handler "view_users:2" (.ok ⟨some [⟨some 2, some "work", some []⟩]⟩)
        = .screen (.text ("No users found in inbound *work*\\."))
      ∧ resultButtons (button_handler "view_users:2"
          (.ok ⟨some [⟨some 2, some "work", some []⟩]⟩)) = [] := by
  constructor
  · rfl
  · rfl

/-- C5 amended: for every `view_users` click whose matched inbound has an
empty `users` list, the handler renders the "no users found" message as a
plain text edit carrying no buttons whatsoever. -/
theorem empty_users_text_only (tok : String) (i : Int) (data : Obj) (target : Inbound)
    (hparse : parse_token tok = some ("view_users", i))
    (hfind : (data.inbounds.getD []).find? (fun ib => ib.id == some i) = some target)
    (hempty : target.users.getD [] = []) :
    button_handler tok (.ok data) =
      .screen (.text ("No users found in inbound *"
          ++ escape_markdown (target.tag.getD "No Name") ++ "*\\."))
      ∧ resultButtons (button_handler tok (.ok data)) = [] := by
  have hmain : button_handler tok (.ok data) =
      .screen (.text ("No users found in inbound *"
        ++ escape_markdown (target.tag.getD "No Name") ++ "*\\.")) := by
    simp [button_handler, hparse, hfind, hempty]
  exact ⟨hmain, by rw [hmain]; rfl⟩

theorem empty_users_text_only_witness :
    button_handler "view_users:4" (.ok ⟨some [⟨some 4, some "home", some []⟩]⟩)
        = .screen (.text ("No users found in inbound *"
            ++ escape_markdown "home" ++ "*\\."))
      ∧ resultButtons (button_handler "view_users:4"
          (.ok ⟨some [⟨some 4, some "home", some []⟩]⟩)) = [] :=
  empty_users_text_only "view_users:4" 4 _ ⟨some 4, some "home", some []⟩
    (by decide) (by decide) (by decide)

/-- C10: an inbound with no `id` key still yields a button, with the
defaulted token `view_users:0`; a click on it compares every fresh
id of every fresh inbound against `some 0`, which the id-less inbound never
matches, so without an inbound of id exactly 0 the handler lands in the
stale-reference ("could not find") branch. -/
theorem missing_id_button_stale (l : List Inbound) (ib : Inbound)
    (hmem : ib ∈ l) (hid : ib.id = none)
    (hzero : ∀ x ∈ l, x.id ≠ some 0) :
    (∃ b ∈ screenButtons (list_inbounds_command (.ok ⟨some l⟩)),
        b.callback_data = "view_users:0")
      ∧ button_handler "view_users:0" (.ok ⟨some l⟩)
          = .screen (.text "Couldn\x27t find that inbound anymore. Try /list_inbounds again.") := by
  constructor
  · cases l with
    | nil => cases hmem
    | cons a t =>
      have hrw : list_inbounds_command (.ok ⟨some (a :: t)⟩)
          = .markup ("*Available Inbounds:*\n" ++ String.join ((a :: t).map inboundLine))
              ((a :: t).map inboundRow) := rfl
      rw [hrw]
      refine ⟨⟨"View Users in \x27" ++ ib.tag.getD "No Name" ++ "\x27 ("
          ++ pyNatStr (ib.users.getD []).length ++ ")",
        "view_users:" ++ pyIntStr (ib.id.getD 0)⟩, ?_, ?_⟩
      · exact mem_screenButtons_inboundRows _ (a :: t) ib hmem _ (by simp [inboundRow])
      · rw [hid]
        rfl
  · have hp : parse_token "view_users:0" = some ("view_users", 0) := by decide
    have hfind : l.find? (fun x => x.id == some (0 : Int)) = none := by
      refine List.find?_eq_none.mpr ?_
      intro x hx
      simpa using hzero x hx
    simp [button_handler, hp, hfind]

theorem missing_id_button_stale_witness :
    (∃ b ∈ screenButtons (list_inbounds_command
          (.ok ⟨some [⟨none, some "x", none⟩]⟩)),
        b.callback_data = "view_users:0")
      ∧ button_handler "view_users:0" (.ok ⟨some [⟨none, some "x", none⟩]⟩)
          = .screen (.text "Couldn\x27t find that inbound anymore. Try /list_inbounds again.") :=
  missing_id_button_stale _ ⟨none, some "x", none⟩ (by decide) rfl (by decide)

/-- C7 counterexample: a 304 response whose body has `success: true` makes
the status check return Ok even though 304 is not a 2xx status — the code
tests `response.ok` (status `< 400`), not "2xx", so "Ok iff 2xx and success
flag" is false. -/
theorem checkStatus_ok_on_304_cex :
    (test_sui_connection (.resp 304 (.ok ⟨some true, none, none⟩))).1 = true
      ∧ ¬(200 ≤ 304 ∧ 304 < 300) := by
  constructor
  · rfl
  · omega

/-- C7 amended: the status check returns Ok iff the response satisfies
`response.ok` (HTTP status below 400) and the success flag of the body is
true;
every other combination — non-ok status, JSON decode failure, API-level
failure flag, or a transport exception (timeouts included, caught by the
same `RequestException` handler, with no retry) — is folded into a single
Err whose message carries the HTTP status, the API message, or the
exception text. -/
theorem checkStatus_folding (r : PanelReply) :
    ((test_sui_connection r).1 = true ↔
        ∃ s b, r = .resp s (.ok b) ∧ respOk s = true ∧ b.success = some true)
      ∧ (∀ e, r = .exn e →
          test_sui_connection r = (false, "❌ Connection error: " ++ e))
      ∧ (∀ s j, r = .resp s j → respOk s = false →
          test_sui_connection r = (false, "❌ Failed to connect. HTTP Status Code: " ++ pyNatStr s))
      ∧ (∀ s e, r = .resp s (.error e) → respOk s = true →
          test_sui_connection r = (false, "❌ Connection error: " ++ e))
      ∧ (∀ s b, r = .resp s (.ok b) → respOk s = true → b.success ≠ some true →
          test_sui_connection r = (false, "❌ s-ui API returned failure: " ++ optMsgStr b.msg)) := by
  refine ⟨?_, ?_, ?_, ?_, ?_⟩
  · constructor
    · intro h
      match r with
      | .exn e => simp [test_sui_connection] at h
      | .resp s j =>
        by_cases hok : respOk s
        · match j with
          | .error e => simp [test_sui_connection, hok] at h
          | .ok b =>
            by_cases hs : b.success = some true
            · exact ⟨s, b, rfl, hok, hs⟩
            · simp [test_sui_connection, hok, hs] at h
        · simp [test_sui_connection, Bool.eq_false_iff.mpr hok] at h
    · rintro ⟨s, b, rfl, hok, hs⟩
      simp [test_sui_connection, hok, hs]
  · rintro e rfl
    rfl
  · rintro s j rfl hok
    match j with
    | .error e => simp [test_sui_connection, hok]
    | .ok b => simp [test_sui_connection, hok]
  · rintro s e rfl hok
    simp [test_sui_connection, hok]
  · rintro s b rfl hok hs
    simp [test_sui_connection, hok, hs]

theorem checkStatus_folding_witness :
    test_sui_connection (.exn "timed out") = (false, "❌ Connection error: " ++ "timed out")
      ∧ test_sui_connection (.resp 500 (.ok ⟨some true, none, none⟩))
          = (false, "❌ Failed to connect. HTTP Status Code: " ++ pyNatStr 500)
      ∧ test_sui_connection (.resp 200 (.ok ⟨some false, none, some "bad token"⟩))
          = (false, "❌ s-ui API returned failure: " ++ optMsgStr (some "bad token")) :=
  ⟨(checkStatus_folding (.exn "timed out")).2.1 "timed out" rfl,
   (checkStatus_folding (.resp 500 (.ok ⟨some true, none, none⟩))).2.2.1 500 _ rfl (by decide),
   (checkStatus_folding (.resp 200 (.ok ⟨some false, none, some "bad token"⟩))).2.2.2.2 200 _
     rfl (by decide) (by decide)⟩
